import Mathlib

/-!
# go-fmu: the FMI2 native-call adapter (`pkg/fmi2/core.c`, `pkg/fmi2/core.h`)

`core.c` holds one C wrapper per FMI2 entry point.  Each wrapper takes the
resolved address `f` of the entry point as a `void *`, casts it to the
function type of the entry point and calls through it.  Two further
functions, `Logger` and `StepFinished`, are callbacks that the native
library calls and that hand their data on to the host handlers `goLogger`
and `goStepFinished`.

The embedding is a state-passing one.  A `World` carries the state of the
loaded native library and the list of calls that have left the adapter; a
`Library` says what code lives at each address.  A C call through a
function pointer is `callThrough`.
-/

set_option linter.unusedVariables false

namespace GoFmu

/-! ## Data model -/

/-- A C pointer value (`void *`, `fmi2Component`, `fmi2String`, arrays). -/
abbrev Addr := Nat

/-- The C constant `NULL`. -/
def NULL : Addr := 0

/-- An `fmi2Component`: the handle the native library returned, never
dereferenced by the adapter. -/
abbrev fmi2Component := Addr

/-- An `fmi2ComponentEnvironment`: the environment token, a `void *`. -/
abbrev fmi2ComponentEnvironment := Addr

/-- An `fmi2String` passed by the wrappers: a `const char *` that is handed
on without being read. -/
abbrev fmi2String := Addr

/-- An `fmi2Boolean`, a C `int` passed by value (`fmi2False` is 0). -/
abbrev fmi2Boolean := Int

/-- An `fmi2Real`, a C `double` passed by value; the adapter only copies
it, so it is carried as its 64-bit pattern. -/
abbrev fmi2Real := Nat

/-- An `fmi2StatusKind`, a C enumeration passed by value, carried as its
integer value. -/
abbrev fmi2StatusKind := Nat

/-- Modelled from the spec: the enumeration `fmi2Status` of the header
`headers/fmi2Functions.h`, which is not among the sources; the spec gives
the six values of StatusCode. -/
inductive fmi2Status
  | fmi2OK
  | fmi2Warning
  | fmi2Discard
  | fmi2Error
  | fmi2Fatal
  | fmi2Pending
  deriving DecidableEq

/-- Modelled from the spec: the enumeration `fmi2Type` of the header
`headers/fmi2Functions.h`, which is not among the sources; the spec names
the two operating modes of an FMU. -/
inductive fmi2Type
  | fmi2ModelExchange
  | fmi2CoSimulation
  deriving DecidableEq

/-- A function pointer stored in the callback struct: null, one of the
functions `Instantiate` names, or some other function at an address. -/
inductive FunPtr
  | null
  | Logger
  | StepFinished
  | calloc
  | free
  | other (a : Addr)
  deriving DecidableEq

/-- Modelled from the spec: the struct `fmi2CallbackFunctions` of the header
`headers/fmi2Functions.h`, which is not among the sources; the spec lists
its members (logger pointer, allocator pointer, deallocator pointer,
step-finished pointer, environment pointer) and `Instantiate` assigns each
by name. -/
structure fmi2CallbackFunctions where
  logger : FunPtr
  allocateMemory : FunPtr
  freeMemory : FunPtr
  stepFinished : FunPtr
  componentEnvironment : fmi2ComponentEnvironment
  deriving DecidableEq

/-- A value passed to or returned by a native function. -/
inductive Value
  | ptr (a : Addr)
  | boolean (b : fmi2Boolean)
  | real (r : fmi2Real)
  | size (n : Nat)
  | statusKind (s : fmi2StatusKind)
  | fmuType (t : fmi2Type)
  | callbacks (p : Option fmi2CallbackFunctions)
  | status (s : fmi2Status)
  | void
  deriving DecidableEq

/-- A call that leaves the adapter: a call through a function pointer, or a
call of one of the two host handlers declared `extern` in `core.c`. -/
inductive Event
  | call (f : Addr) (args : List Value)
  | goLogger (user_data : Addr) (instanceName : fmi2String) (status : fmi2Status)
      (category : fmi2String) (message : List Char)
  | goStepFinished (user_data : Addr) (status : fmi2Status)
  deriving DecidableEq

/-- A native function: from its arguments and the state of the native
library to the value it returns and the new state. -/
abbrev NativeFn (σ : Type) := List Value → σ → Value × σ

/-- The loaded shared library: the function found at each address, if
there is one. -/
structure Library (σ : Type) where
  code : Addr → Option (NativeFn σ)

/-- The function a call through address `a` reaches.  Nothing is callable
at `NULL`. -/
def Library.fn {σ : Type} (lib : Library σ) (a : Addr) : Option (NativeFn σ) :=
  if a = NULL then none else lib.code a

/-- The state of the process as far as the adapter is concerned: the state
of the native library and the calls made so far, oldest first.  `core.c`
declares no variable outside its functions, so there is no adapter
component. -/
structure World (σ : Type) where
  fmu : σ
  trace : List Event

/-- How a wrapper ends: it returns a value, or the call through `f` had no
function to reach. -/
inductive Outcome
  | returned (v : Value)
  | fault
  deriving DecidableEq

/-- The C expression `((T *)f)(args)`: control goes to address `f` with the
arguments; the function found there runs on the native state. -/
def callThrough {σ : Type} (lib : Library σ) (f : Addr) (args : List Value)
    (w : World σ) : Outcome × World σ :=
  match lib.fn f with
  | none => (Outcome.fault, { w with trace := w.trace ++ [Event.call f args] })
  | some g =>
    (Outcome.returned (g args w.fmu).1,
      { fmu := (g args w.fmu).2, trace := w.trace ++ [Event.call f args] })

/-- A call through `f` whose function type returns `void`: the wrapper has
no value to return. -/
def callThroughVoid {σ : Type} (lib : Library σ) (f : Addr) (args : List Value)
    (w : World σ) : Outcome × World σ :=
  match callThrough lib f args w with
  | (Outcome.returned _, w1) => (Outcome.returned Value.void, w1)
  | (Outcome.fault, w1) => (Outcome.fault, w1)

/-! ## The callback bridge -/

/-- The terminating byte of a C string. -/
def NUL : Char := Char.ofNat 0

/-- The C string found at a `char *`: the bytes before the first NUL. -/
def cstr (mem : List Char) : List Char :=
  mem.takeWhile (fun c => c != NUL)

/-- What the formatting of the C library comes to for a format string and
an argument list: the full output, of whatever length, or a failure (the
library then returns a negative value) with the bytes it left at the start
of the buffer. -/
inductive Formatted
  | output (r : List Char)
  | failure (stored : List Char)
  deriving DecidableEq

/-- The formatting function of the C library, from the format string and the
`va_list` to the result.  The C library is not part of the repository, so
`vsnprintf` and `Logger` take this function as a parameter; `α` is the type
of the argument lists. -/
abbrev Formatter (α : Type) := List Char → α → Formatted

/-- The C library function `vsnprintf(s, n, format, ap)` on the memory that
starts at `s`, for the formatting function `cformat`: at most `n - 1` bytes
of the output are stored, followed by a NUL, and the length of the full
output is returned; on a failure the bytes the library left, at most `n` of
them, are in the buffer and the value returned is negative.  The other
bytes of the memory stay as they were. -/
def vsnprintf {α : Type} (cformat : Formatter α) (mem : List Char) (n : Nat)
    (format : List Char) (ap : α) : List Char × Int :=
  match cformat (cstr format) ap with
  | Formatted.failure stored =>
    (stored.take n ++ mem.drop (stored.take n).length, -1)
  | Formatted.output r =>
    if n = 0 then (mem, r.length)
    else (r.take (n - 1) ++ [NUL] ++ mem.drop ((r.take (n - 1)).length + 1), r.length)

/-- The function `Logger` of `core.c`, for the formatting function `cformat`
of the C library.  `stack` is the memory that starts at the local array
`buffer`: its first 1024 bytes are the array, not initialised, and what
follows them is memory that is not the array.  `message` is the format
string and `ap` the variadic arguments.  The result is the call of
`goLogger` and the memory afterwards. -/
def Logger {α : Type} (cformat : Formatter α) (stack : List Char)
    (componentEnvironment : fmi2ComponentEnvironment)
    (instanceName : fmi2String) (status : fmi2Status) (category : fmi2String)
    (message : List Char) (ap : α) : List Event × List Char :=
  let buffer := (vsnprintf cformat stack 1024 message ap).1
  ([Event.goLogger componentEnvironment instanceName status category (cstr buffer)], buffer)

/-! ### A formatting function for worked examples -/

/-- A variadic argument of the worked examples, with the type `va_arg`
reads it at. -/
inductive Arg
  | int (v : Int)
  | uint (v : Nat)
  | chr (c : Char)
  | str (s : List Char)
  deriving DecidableEq

/-- Decimal rendering of a C `int`, as `%d` prints it; the value is brought
into the 32-bit range first. -/
def renderInt (v : Int) : List Char :=
  let i := (v + 2 ^ 31) % 2 ^ 32 - 2 ^ 31
  if i < 0 then '-' :: Nat.toDigits 10 i.natAbs else Nat.toDigits 10 i.toNat

/-- One conversion of the C formatting language without flags, width,
precision or length modifier: the conversion character and the argument it
consumes, for the conversions `%d %i %u %x %c %s`.  An `unsigned` is taken
modulo 2^32 and a character modulo 256. -/
def renderConv (conv : Char) (a : Arg) : Option (List Char) :=
  match a with
  | Arg.int v => if conv = 'd' ∨ conv = 'i' then some (renderInt v) else none
  | Arg.uint v =>
    if conv = 'u' then some (Nat.toDigits 10 (v % 2 ^ 32))
    else if conv = 'x' then some (Nat.toDigits 16 (v % 2 ^ 32)) else none
  | Arg.chr c => if conv = 'c' then some [Char.ofNat (c.toNat % 256)] else none
  | Arg.str s => if conv = 's' then some (cstr s) else none

/-- The output of the C formatting for formats made of plain text, `%%` and
the conversions of `renderConv`; the Boolean says that the previous
character was an unfinished `%`.  `none` for every other format. -/
def render : Bool → List Char → List Arg → Option (List Char)
  | false, [], _ => some []
  | true, [], _ => none
  | false, c :: fmt, ap =>
    if c = '%' then render true fmt ap else (render false fmt ap).map (fun r => c :: r)
  | true, c :: fmt, ap =>
    if c = '%' then (render false fmt ap).map (fun r => '%' :: r)
    else
      match ap with
      | [] => none
      | a :: ap1 =>
        match renderConv c a with
        | none => none
        | some s => (render false fmt ap1).map (fun r => s ++ r)

/-- A formatting function for the worked examples: on the formats of
`render` it gives the output the C library gives.  Other formats are not
examples here; for them it stands for nothing in the C library and reports
a failure that leaves the buffer alone.  The theorems on `Logger` hold for
every formatting function and use this one only at concrete examples. -/
def exampleFormatter : Formatter (List Arg) :=
  fun format ap =>
    match render false format ap with
    | some r => Formatted.output r
    | none => Formatted.failure []

/-- The function `StepFinished` of `core.c`. -/
def StepFinished (componentEnvironment : fmi2ComponentEnvironment) (status : fmi2Status) :
    List Event :=
  [Event.goStepFinished componentEnvironment status]

/-! ## The typed invoker: one wrapper per entry point, in the order of `core.c` -/

/-- C: `const char * GetTypesPlatform(void *f)`. -/
def GetTypesPlatform {σ : Type} (lib : Library σ) (f : Addr)
    (w : World σ) : Outcome × World σ :=
  callThrough lib f [] w

/-- C: `const char * GetVersion(void *f)`. -/
def GetVersion {σ : Type} (lib : Library σ) (f : Addr)
    (w : World σ) : Outcome × World σ :=
  callThrough lib f [] w

/-- C: `fmi2Status SetDebugLogging(void *f, fmi2Component component,
fmi2Boolean loggingOn, size_t nCategories, const fmi2String categories[])`. -/
def SetDebugLogging {σ : Type} (lib : Library σ) (f : Addr) (component : fmi2Component)
    (loggingOn : fmi2Boolean) (nCategories : Nat) (categories : Addr)
    (w : World σ) : Outcome × World σ :=
  callThrough lib f
    [Value.ptr component, Value.boolean loggingOn, Value.size nCategories, Value.ptr categories] w

/-- C: `void FreeInstance(void *f, fmi2Component component)`. -/
def FreeInstance {σ : Type} (lib : Library σ) (f : Addr) (component : fmi2Component)
    (w : World σ) : Outcome × World σ :=
  callThroughVoid lib f [Value.ptr component] w

/-- The struct `callbacks` that `Instantiate` fills in before the call. -/
def Instantiate.callbacks : fmi2CallbackFunctions :=
  { logger := FunPtr.Logger
    allocateMemory := FunPtr.calloc
    freeMemory := FunPtr.free
    stepFinished := FunPtr.null
    componentEnvironment := NULL }

/-- C: `fmi2Component Instantiate(void *f, fmi2String instanceName, fmi2Type
fmuType, fmi2String fmuGUID, fmi2String fmuResourceLocation, const
fmi2CallbackFunctions *functions, fmi2Boolean visible, fmi2Boolean
loggingOn)`; the native function gets `&callbacks`, the address of the
local struct. -/
def Instantiate {σ : Type} (lib : Library σ) (f : Addr) (instanceName : fmi2String)
    (fmuType : fmi2Type) (fmuGUID : fmi2String) (fmuResourceLocation : fmi2String)
    (functions : Option fmi2CallbackFunctions) (visible : fmi2Boolean) (loggingOn : fmi2Boolean)
    (w : World σ) : Outcome × World σ :=
  let callbacks := Instantiate.callbacks
  callThrough lib f
    [Value.ptr instanceName, Value.fmuType fmuType, Value.ptr fmuGUID,
      Value.ptr fmuResourceLocation, Value.callbacks (some callbacks), Value.boolean visible,
      Value.boolean loggingOn] w

/-- C: `fmi2Status SetupExperiment(void *f, fmi2Component c, fmi2Boolean
relativeToleranceDefined, fmi2Real relativeTolerance, fmi2Real tStart,
fmi2Boolean tStopDefined, fmi2Real tStop)`. -/
def SetupExperiment {σ : Type} (lib : Library σ) (f : Addr) (c : fmi2Component)
    (relativeToleranceDefined : fmi2Boolean) (relativeTolerance : fmi2Real) (tStart : fmi2Real)
    (tStopDefined : fmi2Boolean) (tStop : fmi2Real)
    (w : World σ) : Outcome × World σ :=
  callThrough lib f
    [Value.ptr c, Value.boolean relativeToleranceDefined, Value.real relativeTolerance,
      Value.real tStart, Value.boolean tStopDefined, Value.real tStop] w

/-- C: `fmi2Status EnterInitializationMode(void *f, fmi2Component c)`. -/
def EnterInitializationMode {σ : Type} (lib : Library σ) (f : Addr) (c : fmi2Component)
    (w : World σ) : Outcome × World σ :=
  callThrough lib f [Value.ptr c] w

/-- C: `fmi2Status ExitInitializationMode(void *f, fmi2Component c)`. -/
def ExitInitializationMode {σ : Type} (lib : Library σ) (f : Addr) (c : fmi2Component)
    (w : World σ) : Outcome × World σ :=
  callThrough lib f [Value.ptr c] w

/-- C: `fmi2Status Terminate(void *f, fmi2Component c)`. -/
def Terminate {σ : Type} (lib : Library σ) (f : Addr) (c : fmi2Component)
    (w : World σ) : Outcome × World σ :=
  callThrough lib f [Value.ptr c] w

/-- C: `fmi2Status Reset(void *f, fmi2Component c)`. -/
def Reset {σ : Type} (lib : Library σ) (f : Addr) (c : fmi2Component)
    (w : World σ) : Outcome × World σ :=
  callThrough lib f [Value.ptr c] w

/-- C: `fmi2Status GetReal(void *f, fmi2Component c, const fmi2ValueReference
vr[], size_t nvr, fmi2Real value[])`. -/
def GetReal {σ : Type} (lib : Library σ) (f : Addr) (c : fmi2Component) (vr : Addr) (nvr : Nat)
    (value : Addr)
    (w : World σ) : Outcome × World σ :=
  callThrough lib f [Value.ptr c, Value.ptr vr, Value.size nvr, Value.ptr value] w

/-- C: `fmi2Status GetInteger(void *f, fmi2Component c, const
fmi2ValueReference vr[], size_t nvr, fmi2Integer value[])`. -/
def GetInteger {σ : Type} (lib : Library σ) (f : Addr) (c : fmi2Component) (vr : Addr) (nvr : Nat)
    (value : Addr)
    (w : World σ) : Outcome × World σ :=
  callThrough lib f [Value.ptr c, Value.ptr vr, Value.size nvr, Value.ptr value] w

/-- C: `fmi2Status GetBoolean(void *f, fmi2Component c, const
fmi2ValueReference vr[], size_t nvr, fmi2Boolean value[])`. -/
def GetBoolean {σ : Type} (lib : Library σ) (f : Addr) (c : fmi2Component) (vr : Addr) (nvr : Nat)
    (value : Addr)
    (w : World σ) : Outcome × World σ :=
  callThrough lib f [Value.ptr c, Value.ptr vr, Value.size nvr, Value.ptr value] w

/-- C: `fmi2Status GetString(void *f, fmi2Component c, const
fmi2ValueReference vr[], size_t nvr, fmi2String value[])`. -/
def GetString {σ : Type} (lib : Library σ) (f : Addr) (c : fmi2Component) (vr : Addr) (nvr : Nat)
    (value : Addr)
    (w : World σ) : Outcome × World σ :=
  callThrough lib f [Value.ptr c, Value.ptr vr, Value.size nvr, Value.ptr value] w

/-- C: `fmi2Status GetRealOutputDerivatives(void *f, fmi2Component c, const
fmi2ValueReference vr[], size_t nvr, const fmi2Integer order[], fmi2Real
value[])`. -/
def GetRealOutputDerivatives {σ : Type} (lib : Library σ) (f : Addr) (c : fmi2Component)
    (vr : Addr) (nvr : Nat) (order : Addr) (value : Addr)
    (w : World σ) : Outcome × World σ :=
  callThrough lib f [Value.ptr c, Value.ptr vr, Value.size nvr, Value.ptr order, Value.ptr value] w

/-- C: `fmi2Status SetReal(void *f, fmi2Component c, const fmi2ValueReference
vr[], size_t nvr, const fmi2Real value[])`. -/
def SetReal {σ : Type} (lib : Library σ) (f : Addr) (c : fmi2Component) (vr : Addr) (nvr : Nat)
    (value : Addr)
    (w : World σ) : Outcome × World σ :=
  callThrough lib f [Value.ptr c, Value.ptr vr, Value.size nvr, Value.ptr value] w

/-- C: `fmi2Status SetInteger(void *f, fmi2Component c, const
fmi2ValueReference vr[], size_t nvr, const fmi2Integer value[])`. -/
def SetInteger {σ : Type} (lib : Library σ) (f : Addr) (c : fmi2Component) (vr : Addr) (nvr : Nat)
    (value : Addr)
    (w : World σ) : Outcome × World σ :=
  callThrough lib f [Value.ptr c, Value.ptr vr, Value.size nvr, Value.ptr value] w

/-- C: `fmi2Status SetBoolean(void *f, fmi2Component c, const
fmi2ValueReference vr[], size_t nvr, const fmi2Boolean value[])`. -/
def SetBoolean {σ : Type} (lib : Library σ) (f : Addr) (c : fmi2Component) (vr : Addr) (nvr : Nat)
    (value : Addr)
    (w : World σ) : Outcome × World σ :=
  callThrough lib f [Value.ptr c, Value.ptr vr, Value.size nvr, Value.ptr value] w

/-- C: `fmi2Status SetString(void *f, fmi2Component c, const
fmi2ValueReference vr[], size_t nvr, const fmi2String value[])`. -/
def SetString {σ : Type} (lib : Library σ) (f : Addr) (c : fmi2Component) (vr : Addr) (nvr : Nat)
    (value : Addr)
    (w : World σ) : Outcome × World σ :=
  callThrough lib f [Value.ptr c, Value.ptr vr, Value.size nvr, Value.ptr value] w

/-- C: `fmi2Status SetRealInputDerivatives(void *f, fmi2Component c, const
fmi2ValueReference vr[], size_t nvr, const fmi2Integer order[], const fmi2Real
value[])`. -/
def SetRealInputDerivatives {σ : Type} (lib : Library σ) (f : Addr) (c : fmi2Component)
    (vr : Addr) (nvr : Nat) (order : Addr) (value : Addr)
    (w : World σ) : Outcome × World σ :=
  callThrough lib f [Value.ptr c, Value.ptr vr, Value.size nvr, Value.ptr order, Value.ptr value] w

/-- C: `fmi2Status GetFMUstate(void *f, fmi2Component c, void *FMUstate)`. -/
def GetFMUstate {σ : Type} (lib : Library σ) (f : Addr) (c : fmi2Component) (FMUstate : Addr)
    (w : World σ) : Outcome × World σ :=
  callThrough lib f [Value.ptr c, Value.ptr FMUstate] w

/-- C: `fmi2Status SetFMUstate(void *f, fmi2Component c, void *FMUstate)`. -/
def SetFMUstate {σ : Type} (lib : Library σ) (f : Addr) (c : fmi2Component) (FMUstate : Addr)
    (w : World σ) : Outcome × World σ :=
  callThrough lib f [Value.ptr c, Value.ptr FMUstate] w

/-- C: `fmi2Status FreeFMUstate(void *f, fmi2Component c, void *FMUstate)`. -/
def FreeFMUstate {σ : Type} (lib : Library σ) (f : Addr) (c : fmi2Component) (FMUstate : Addr)
    (w : World σ) : Outcome × World σ :=
  callThrough lib f [Value.ptr c, Value.ptr FMUstate] w

/-- C: `fmi2Status SerializedFMUstateSize(void *f, fmi2Component c, void
*FMUstate, size_t *size)`. -/
def SerializedFMUstateSize {σ : Type} (lib : Library σ) (f : Addr) (c : fmi2Component)
    (FMUstate : Addr) (size : Addr)
    (w : World σ) : Outcome × World σ :=
  callThrough lib f [Value.ptr c, Value.ptr FMUstate, Value.ptr size] w

/-- C: `fmi2Status SerializeFMUstate(void *f, fmi2Component c, void *FMUstate,
void *serializedState, size_t size)`. -/
def SerializeFMUstate {σ : Type} (lib : Library σ) (f : Addr) (c : fmi2Component)
    (FMUstate : Addr) (serializedState : Addr) (size : Nat)
    (w : World σ) : Outcome × World σ :=
  callThrough lib f [Value.ptr c, Value.ptr FMUstate, Value.ptr serializedState, Value.size size] w

/-- C: `fmi2Status DeSerializeFMUstate(void *f, fmi2Component c, const void
*serializedState, size_t size, void *FMUstate)`. -/
def DeSerializeFMUstate {σ : Type} (lib : Library σ) (f : Addr) (c : fmi2Component)
    (serializedState : Addr) (size : Nat) (FMUstate : Addr)
    (w : World σ) : Outcome × World σ :=
  callThrough lib f [Value.ptr c, Value.ptr serializedState, Value.size size, Value.ptr FMUstate] w

/-- C: `fmi2Status DoStep(void *f, fmi2Component c, fmi2Real
currentCommunicationPoint, fmi2Real communicationStepSize, fmi2Boolean
noSetFMUStatePriorToCurrentPoint)`. -/
def DoStep {σ : Type} (lib : Library σ) (f : Addr) (c : fmi2Component)
    (currentCommunicationPoint : fmi2Real) (communicationStepSize : fmi2Real)
    (noSetFMUStatePriorToCurrentPoint : fmi2Boolean)
    (w : World σ) : Outcome × World σ :=
  callThrough lib f
    [Value.ptr c, Value.real currentCommunicationPoint, Value.real communicationStepSize,
      Value.boolean noSetFMUStatePriorToCurrentPoint] w

/-- C: `fmi2Status CancelStep(void *f, fmi2Component c)`. -/
def CancelStep {σ : Type} (lib : Library σ) (f : Addr) (c : fmi2Component)
    (w : World σ) : Outcome × World σ :=
  callThrough lib f [Value.ptr c] w

/-- C: `fmi2Status GetStatus(void *f, fmi2Component c, const fmi2StatusKind s,
fmi2Status *value)`. -/
def GetStatus {σ : Type} (lib : Library σ) (f : Addr) (c : fmi2Component) (s : fmi2StatusKind)
    (value : Addr)
    (w : World σ) : Outcome × World σ :=
  callThrough lib f [Value.ptr c, Value.statusKind s, Value.ptr value] w

/-- C: `fmi2Status GetRealStatus(void *f, fmi2Component c, const
fmi2StatusKind s, fmi2Real *value)`. -/
def GetRealStatus {σ : Type} (lib : Library σ) (f : Addr) (c : fmi2Component) (s : fmi2StatusKind)
    (value : Addr)
    (w : World σ) : Outcome × World σ :=
  callThrough lib f [Value.ptr c, Value.statusKind s, Value.ptr value] w

/-- C: `fmi2Status GetIntegerStatus(void *f, fmi2Component c, const
fmi2StatusKind s, fmi2Integer *value)`. -/
def GetIntegerStatus {σ : Type} (lib : Library σ) (f : Addr) (c : fmi2Component)
    (s : fmi2StatusKind) (value : Addr)
    (w : World σ) : Outcome × World σ :=
  callThrough lib f [Value.ptr c, Value.statusKind s, Value.ptr value] w

/-- C: `fmi2Status GetBooleanStatus(void *f, fmi2Component c, const
fmi2StatusKind s, fmi2Boolean *value)`. -/
def GetBooleanStatus {σ : Type} (lib : Library σ) (f : Addr) (c : fmi2Component)
    (s : fmi2StatusKind) (value : Addr)
    (w : World σ) : Outcome × World σ :=
  callThrough lib f [Value.ptr c, Value.statusKind s, Value.ptr value] w

/-- C: `fmi2Status GetStringStatus(void *f, fmi2Component c, const
fmi2StatusKind s, fmi2String *value)`. -/
def GetStringStatus {σ : Type} (lib : Library σ) (f : Addr) (c : fmi2Component)
    (s : fmi2StatusKind) (value : Addr)
    (w : World σ) : Outcome × World σ :=
  callThrough lib f [Value.ptr c, Value.statusKind s, Value.ptr value] w

/-- C: `fmi2Status EnterEventMode(void *f, fmi2Component c)`. -/
def EnterEventMode {σ : Type} (lib : Library σ) (f : Addr) (c : fmi2Component)
    (w : World σ) : Outcome × World σ :=
  callThrough lib f [Value.ptr c] w

/-- C: `fmi2Status EnterContinuousTimeMode(void *f, fmi2Component c)`. -/
def EnterContinuousTimeMode {σ : Type} (lib : Library σ) (f : Addr) (c : fmi2Component)
    (w : World σ) : Outcome × World σ :=
  callThrough lib f [Value.ptr c] w

/-- C: `fmi2Status SetTime(void *f, fmi2Component c, fmi2Real time)`. -/
def SetTime {σ : Type} (lib : Library σ) (f : Addr) (c : fmi2Component) (time : fmi2Real)
    (w : World σ) : Outcome × World σ :=
  callThrough lib f [Value.ptr c, Value.real time] w

/-- C: `fmi2Status GetDerivatives(void *f, fmi2Component c, fmi2Real derivatives[], size_t nx)`. -/
def GetDerivatives {σ : Type} (lib : Library σ) (f : Addr) (c : fmi2Component)
    (derivatives : Addr) (nx : Nat)
    (w : World σ) : Outcome × World σ :=
  callThrough lib f [Value.ptr c, Value.ptr derivatives, Value.size nx] w

/-- C: `fmi2Status GetEventIndicators(void *f, fmi2Component c, fmi2Real
eventIndicators[], size_t ni)`. -/
def GetEventIndicators {σ : Type} (lib : Library σ) (f : Addr) (c : fmi2Component)
    (eventIndicators : Addr) (ni : Nat)
    (w : World σ) : Outcome × World σ :=
  callThrough lib f [Value.ptr c, Value.ptr eventIndicators, Value.size ni] w

/-- C: `fmi2Status NewDiscreteStates(void *f, fmi2Component c, fmi2EventInfo *eventInfo)`. -/
def NewDiscreteStates {σ : Type} (lib : Library σ) (f : Addr) (c : fmi2Component)
    (eventInfo : Addr)
    (w : World σ) : Outcome × World σ :=
  callThrough lib f [Value.ptr c, Value.ptr eventInfo] w

/-- C: `fmi2Status GetContinuousStates(void *f, fmi2Component c, fmi2Real states[], size_t nx)`. -/
def GetContinuousStates {σ : Type} (lib : Library σ) (f : Addr) (c : fmi2Component)
    (states : Addr) (nx : Nat)
    (w : World σ) : Outcome × World σ :=
  callThrough lib f [Value.ptr c, Value.ptr states, Value.size nx] w

/-- C: `fmi2Status SetContinuousStates(void *f, fmi2Component c, const fmi2Real x[], size_t nx)`. -/
def SetContinuousStates {σ : Type} (lib : Library σ) (f : Addr) (c : fmi2Component) (x : Addr)
    (nx : Nat)
    (w : World σ) : Outcome × World σ :=
  callThrough lib f [Value.ptr c, Value.ptr x, Value.size nx] w

/-- C: `fmi2Status GetNominalsOfContinuousStates(void *f, fmi2Component c,
fmi2Real x_nominal[], size_t nx)`. -/
def GetNominalsOfContinuousStates {σ : Type} (lib : Library σ) (f : Addr) (c : fmi2Component)
    (x_nominal : Addr) (nx : Nat)
    (w : World σ) : Outcome × World σ :=
  callThrough lib f [Value.ptr c, Value.ptr x_nominal, Value.size nx] w

/-- C: `fmi2Status GetDirectionalDerivative(void *f, fmi2Component c, const
fmi2ValueReference z_ref[], size_t nz, const fmi2ValueReference v_ref[],
size_t nv, const fmi2Real dv[], fmi2Real dz[])`. -/
def GetDirectionalDerivative {σ : Type} (lib : Library σ) (f : Addr) (c : fmi2Component)
    (z_ref : Addr) (nz : Nat) (v_ref : Addr) (nv : Nat) (dv : Addr) (dz : Addr)
    (w : World σ) : Outcome × World σ :=
  callThrough lib f
    [Value.ptr c, Value.ptr z_ref, Value.size nz, Value.ptr v_ref, Value.size nv, Value.ptr dv,
      Value.ptr dz] w

/-- C: `fmi2Status CompletedIntegratorStep(void *f, fmi2Component c,
fmi2Boolean noSetFMUStatePriorToCurrentPoint, fmi2Boolean *enterEventMode,
fmi2Boolean *terminateSimulation)`. -/
def CompletedIntegratorStep {σ : Type} (lib : Library σ) (f : Addr) (c : fmi2Component)
    (noSetFMUStatePriorToCurrentPoint : fmi2Boolean) (enterEventMode : Addr)
    (terminateSimulation : Addr)
    (w : World σ) : Outcome × World σ :=
  callThrough lib f
    [Value.ptr c, Value.boolean noSetFMUStatePriorToCurrentPoint, Value.ptr enterEventMode,
      Value.ptr terminateSimulation] w

/-! ## Adapter calls as data -/

/-- One call of a wrapper by the host: the wrapper and the arguments it is
called with, the entry-point address `f` first. -/
inductive Invocation
  | GetTypesPlatform (f : Addr)
  | GetVersion (f : Addr)
  | SetDebugLogging (f : Addr) (component : fmi2Component) (loggingOn : fmi2Boolean)
      (nCategories : Nat) (categories : Addr)
  | FreeInstance (f : Addr) (component : fmi2Component)
  | Instantiate (f : Addr) (instanceName : fmi2String) (fmuType : fmi2Type) (fmuGUID : fmi2String)
      (fmuResourceLocation : fmi2String) (functions : Option fmi2CallbackFunctions)
      (visible : fmi2Boolean) (loggingOn : fmi2Boolean)
  | SetupExperiment (f : Addr) (c : fmi2Component) (relativeToleranceDefined : fmi2Boolean)
      (relativeTolerance : fmi2Real) (tStart : fmi2Real) (tStopDefined : fmi2Boolean)
      (tStop : fmi2Real)
  | EnterInitializationMode (f : Addr) (c : fmi2Component)
  | ExitInitializationMode (f : Addr) (c : fmi2Component)
  | Terminate (f : Addr) (c : fmi2Component)
  | Reset (f : Addr) (c : fmi2Component)
  | GetReal (f : Addr) (c : fmi2Component) (vr : Addr) (nvr : Nat) (value : Addr)
  | GetInteger (f : Addr) (c : fmi2Component) (vr : Addr) (nvr : Nat) (value : Addr)
  | GetBoolean (f : Addr) (c : fmi2Component) (vr : Addr) (nvr : Nat) (value : Addr)
  | GetString (f : Addr) (c : fmi2Component) (vr : Addr) (nvr : Nat) (value : Addr)
  | GetRealOutputDerivatives (f : Addr) (c : fmi2Component) (vr : Addr) (nvr : Nat) (order : Addr)
      (value : Addr)
  | SetReal (f : Addr) (c : fmi2Component) (vr : Addr) (nvr : Nat) (value : Addr)
  | SetInteger (f : Addr) (c : fmi2Component) (vr : Addr) (nvr : Nat) (value : Addr)
  | SetBoolean (f : Addr) (c : fmi2Component) (vr : Addr) (nvr : Nat) (value : Addr)
  | SetString (f : Addr) (c : fmi2Component) (vr : Addr) (nvr : Nat) (value : Addr)
  | SetRealInputDerivatives (f : Addr) (c : fmi2Component) (vr : Addr) (nvr : Nat) (order : Addr)
      (value : Addr)
  | GetFMUstate (f : Addr) (c : fmi2Component) (FMUstate : Addr)
  | SetFMUstate (f : Addr) (c : fmi2Component) (FMUstate : Addr)
  | FreeFMUstate (f : Addr) (c : fmi2Component) (FMUstate : Addr)
  | SerializedFMUstateSize (f : Addr) (c : fmi2Component) (FMUstate : Addr) (size : Addr)
  | SerializeFMUstate (f : Addr) (c : fmi2Component) (FMUstate : Addr) (serializedState : Addr)
      (size : Nat)
  | DeSerializeFMUstate (f : Addr) (c : fmi2Component) (serializedState : Addr) (size : Nat)
      (FMUstate : Addr)
  | DoStep (f : Addr) (c : fmi2Component) (currentCommunicationPoint : fmi2Real)
      (communicationStepSize : fmi2Real) (noSetFMUStatePriorToCurrentPoint : fmi2Boolean)
  | CancelStep (f : Addr) (c : fmi2Component)
  | GetStatus (f : Addr) (c : fmi2Component) (s : fmi2StatusKind) (value : Addr)
  | GetRealStatus (f : Addr) (c : fmi2Component) (s : fmi2StatusKind) (value : Addr)
  | GetIntegerStatus (f : Addr) (c : fmi2Component) (s : fmi2StatusKind) (value : Addr)
  | GetBooleanStatus (f : Addr) (c : fmi2Component) (s : fmi2StatusKind) (value : Addr)
  | GetStringStatus (f : Addr) (c : fmi2Component) (s : fmi2StatusKind) (value : Addr)
  | EnterEventMode (f : Addr) (c : fmi2Component)
  | EnterContinuousTimeMode (f : Addr) (c : fmi2Component)
  | SetTime (f : Addr) (c : fmi2Component) (time : fmi2Real)
  | GetDerivatives (f : Addr) (c : fmi2Component) (derivatives : Addr) (nx : Nat)
  | GetEventIndicators (f : Addr) (c : fmi2Component) (eventIndicators : Addr) (ni : Nat)
  | NewDiscreteStates (f : Addr) (c : fmi2Component) (eventInfo : Addr)
  | GetContinuousStates (f : Addr) (c : fmi2Component) (states : Addr) (nx : Nat)
  | SetContinuousStates (f : Addr) (c : fmi2Component) (x : Addr) (nx : Nat)
  | GetNominalsOfContinuousStates (f : Addr) (c : fmi2Component) (x_nominal : Addr) (nx : Nat)
  | GetDirectionalDerivative (f : Addr) (c : fmi2Component) (z_ref : Addr) (nz : Nat)
      (v_ref : Addr) (nv : Nat) (dv : Addr) (dz : Addr)
  | CompletedIntegratorStep (f : Addr) (c : fmi2Component)
      (noSetFMUStatePriorToCurrentPoint : fmi2Boolean) (enterEventMode : Addr)
      (terminateSimulation : Addr)

/-- The entry-point address an adapter call is given. -/
def Invocation.f : Invocation → Addr
  | Invocation.GetTypesPlatform f => f
  | Invocation.GetVersion f => f
  | Invocation.SetDebugLogging f _ _ _ _ => f
  | Invocation.FreeInstance f _ => f
  | Invocation.Instantiate f _ _ _ _ _ _ _ => f
  | Invocation.SetupExperiment f _ _ _ _ _ _ => f
  | Invocation.EnterInitializationMode f _ => f
  | Invocation.ExitInitializationMode f _ => f
  | Invocation.Terminate f _ => f
  | Invocation.Reset f _ => f
  | Invocation.GetReal f _ _ _ _ => f
  | Invocation.GetInteger f _ _ _ _ => f
  | Invocation.GetBoolean f _ _ _ _ => f
  | Invocation.GetString f _ _ _ _ => f
  | Invocation.GetRealOutputDerivatives f _ _ _ _ _ => f
  | Invocation.SetReal f _ _ _ _ => f
  | Invocation.SetInteger f _ _ _ _ => f
  | Invocation.SetBoolean f _ _ _ _ => f
  | Invocation.SetString f _ _ _ _ => f
  | Invocation.SetRealInputDerivatives f _ _ _ _ _ => f
  | Invocation.GetFMUstate f _ _ => f
  | Invocation.SetFMUstate f _ _ => f
  | Invocation.FreeFMUstate f _ _ => f
  | Invocation.SerializedFMUstateSize f _ _ _ => f
  | Invocation.SerializeFMUstate f _ _ _ _ => f
  | Invocation.DeSerializeFMUstate f _ _ _ _ => f
  | Invocation.DoStep f _ _ _ _ => f
  | Invocation.CancelStep f _ => f
  | Invocation.GetStatus f _ _ _ => f
  | Invocation.GetRealStatus f _ _ _ => f
  | Invocation.GetIntegerStatus f _ _ _ => f
  | Invocation.GetBooleanStatus f _ _ _ => f
  | Invocation.GetStringStatus f _ _ _ => f
  | Invocation.EnterEventMode f _ => f
  | Invocation.EnterContinuousTimeMode f _ => f
  | Invocation.SetTime f _ _ => f
  | Invocation.GetDerivatives f _ _ _ => f
  | Invocation.GetEventIndicators f _ _ _ => f
  | Invocation.NewDiscreteStates f _ _ => f
  | Invocation.GetContinuousStates f _ _ _ => f
  | Invocation.SetContinuousStates f _ _ _ => f
  | Invocation.GetNominalsOfContinuousStates f _ _ _ => f
  | Invocation.GetDirectionalDerivative f _ _ _ _ _ _ _ => f
  | Invocation.CompletedIntegratorStep f _ _ _ _ => f

/-- The arguments an adapter call is given after `f`, in the order of the
wrapper declaration in `core.h`. -/
def Invocation.arguments : Invocation → List Value
  | Invocation.GetTypesPlatform _ => []
  | Invocation.GetVersion _ => []
  | Invocation.SetDebugLogging _ component loggingOn nCategories categories =>
      [Value.ptr component, Value.boolean loggingOn, Value.size nCategories, Value.ptr categories]
  | Invocation.FreeInstance _ component => [Value.ptr component]
  | Invocation.Instantiate _ instanceName fmuType fmuGUID fmuResourceLocation functions visible
      loggingOn =>
      
      [Value.ptr instanceName, Value.fmuType fmuType, Value.ptr fmuGUID,
        Value.ptr fmuResourceLocation, Value.callbacks functions, Value.boolean visible,
        Value.boolean loggingOn]
  | Invocation.SetupExperiment _ c relativeToleranceDefined relativeTolerance tStart
      tStopDefined tStop =>
      
      [Value.ptr c, Value.boolean relativeToleranceDefined, Value.real relativeTolerance,
        Value.real tStart, Value.boolean tStopDefined, Value.real tStop]
  | Invocation.EnterInitializationMode _ c => [Value.ptr c]
  | Invocation.ExitInitializationMode _ c => [Value.ptr c]
  | Invocation.Terminate _ c => [Value.ptr c]
  | Invocation.Reset _ c => [Value.ptr c]
  | Invocation.GetReal _ c vr nvr value =>
      [Value.ptr c, Value.ptr vr, Value.size nvr, Value.ptr value]
  | Invocation.GetInteger _ c vr nvr value =>
      [Value.ptr c, Value.ptr vr, Value.size nvr, Value.ptr value]
  | Invocation.GetBoolean _ c vr nvr value =>
      [Value.ptr c, Value.ptr vr, Value.size nvr, Value.ptr value]
  | Invocation.GetString _ c vr nvr value =>
      [Value.ptr c, Value.ptr vr, Value.size nvr, Value.ptr value]
  | Invocation.GetRealOutputDerivatives _ c vr nvr order value =>
      [Value.ptr c, Value.ptr vr, Value.size nvr, Value.ptr order, Value.ptr value]
  | Invocation.SetReal _ c vr nvr value =>
      [Value.ptr c, Value.ptr vr, Value.size nvr, Value.ptr value]
  | Invocation.SetInteger _ c vr nvr value =>
      [Value.ptr c, Value.ptr vr, Value.size nvr, Value.ptr value]
  | Invocation.SetBoolean _ c vr nvr value =>
      [Value.ptr c, Value.ptr vr, Value.size nvr, Value.ptr value]
  | Invocation.SetString _ c vr nvr value =>
      [Value.ptr c, Value.ptr vr, Value.size nvr, Value.ptr value]
  | Invocation.SetRealInputDerivatives _ c vr nvr order value =>
      [Value.ptr c, Value.ptr vr, Value.size nvr, Value.ptr order, Value.ptr value]
  | Invocation.GetFMUstate _ c FMUstate => [Value.ptr c, Value.ptr FMUstate]
  | Invocation.SetFMUstate _ c FMUstate => [Value.ptr c, Value.ptr FMUstate]
  | Invocation.FreeFMUstate _ c FMUstate => [Value.ptr c, Value.ptr FMUstate]
  | Invocation.SerializedFMUstateSize _ c FMUstate size =>
      [Value.ptr c, Value.ptr FMUstate, Value.ptr size]
  | Invocation.SerializeFMUstate _ c FMUstate serializedState size =>
      [Value.ptr c, Value.ptr FMUstate, Value.ptr serializedState, Value.size size]
  | Invocation.DeSerializeFMUstate _ c serializedState size FMUstate =>
      [Value.ptr c, Value.ptr serializedState, Value.size size, Value.ptr FMUstate]
  | Invocation.DoStep _ c currentCommunicationPoint communicationStepSize
      noSetFMUStatePriorToCurrentPoint =>
      
      [Value.ptr c, Value.real currentCommunicationPoint, Value.real communicationStepSize,
        Value.boolean noSetFMUStatePriorToCurrentPoint]
  | Invocation.CancelStep _ c => [Value.ptr c]
  | Invocation.GetStatus _ c s value => [Value.ptr c, Value.statusKind s, Value.ptr value]
  | Invocation.GetRealStatus _ c s value => [Value.ptr c, Value.statusKind s, Value.ptr value]
  | Invocation.GetIntegerStatus _ c s value => [Value.ptr c, Value.statusKind s, Value.ptr value]
  | Invocation.GetBooleanStatus _ c s value => [Value.ptr c, Value.statusKind s, Value.ptr value]
  | Invocation.GetStringStatus _ c s value => [Value.ptr c, Value.statusKind s, Value.ptr value]
  | Invocation.EnterEventMode _ c => [Value.ptr c]
  | Invocation.EnterContinuousTimeMode _ c => [Value.ptr c]
  | Invocation.SetTime _ c time => [Value.ptr c, Value.real time]
  | Invocation.GetDerivatives _ c derivatives nx =>
      [Value.ptr c, Value.ptr derivatives, Value.size nx]
  | Invocation.GetEventIndicators _ c eventIndicators ni =>
      [Value.ptr c, Value.ptr eventIndicators, Value.size ni]
  | Invocation.NewDiscreteStates _ c eventInfo => [Value.ptr c, Value.ptr eventInfo]
  | Invocation.GetContinuousStates _ c states nx => [Value.ptr c, Value.ptr states, Value.size nx]
  | Invocation.SetContinuousStates _ c x nx => [Value.ptr c, Value.ptr x, Value.size nx]
  | Invocation.GetNominalsOfContinuousStates _ c x_nominal nx =>
      [Value.ptr c, Value.ptr x_nominal, Value.size nx]
  | Invocation.GetDirectionalDerivative _ c z_ref nz v_ref nv dv dz =>
      [Value.ptr c, Value.ptr z_ref, Value.size nz, Value.ptr v_ref, Value.size nv, Value.ptr dv,
        Value.ptr dz]
  | Invocation.CompletedIntegratorStep _ c noSetFMUStatePriorToCurrentPoint enterEventMode
      terminateSimulation =>
      
      [Value.ptr c, Value.boolean noSetFMUStatePriorToCurrentPoint, Value.ptr enterEventMode,
        Value.ptr terminateSimulation]

/-- Running an adapter call: the wrapper of that name applied to the
arguments. -/
def run {σ : Type} (lib : Library σ) (inv : Invocation) (w : World σ) : Outcome × World σ :=
  match inv with
  | Invocation.GetTypesPlatform f => GoFmu.GetTypesPlatform lib f w
  | Invocation.GetVersion f => GoFmu.GetVersion lib f w
  | Invocation.SetDebugLogging f component loggingOn nCategories categories =>
      GoFmu.SetDebugLogging lib f component loggingOn nCategories categories w
  | Invocation.FreeInstance f component => GoFmu.FreeInstance lib f component w
  | Invocation.Instantiate f instanceName fmuType fmuGUID fmuResourceLocation functions visible
      loggingOn =>
      
      GoFmu.Instantiate lib f instanceName fmuType fmuGUID fmuResourceLocation functions visible
        loggingOn w
  | Invocation.SetupExperiment f c relativeToleranceDefined relativeTolerance tStart
      tStopDefined tStop =>
      
      GoFmu.SetupExperiment lib f c relativeToleranceDefined relativeTolerance tStart
        tStopDefined tStop w
  | Invocation.EnterInitializationMode f c => GoFmu.EnterInitializationMode lib f c w
  | Invocation.ExitInitializationMode f c => GoFmu.ExitInitializationMode lib f c w
  | Invocation.Terminate f c => GoFmu.Terminate lib f c w
  | Invocation.Reset f c => GoFmu.Reset lib f c w
  | Invocation.GetReal f c vr nvr value => GoFmu.GetReal lib f c vr nvr value w
  | Invocation.GetInteger f c vr nvr value => GoFmu.GetInteger lib f c vr nvr value w
  | Invocation.GetBoolean f c vr nvr value => GoFmu.GetBoolean lib f c vr nvr value w
  | Invocation.GetString f c vr nvr value => GoFmu.GetString lib f c vr nvr value w
  | Invocation.GetRealOutputDerivatives f c vr nvr order value =>
      GoFmu.GetRealOutputDerivatives lib f c vr nvr order value w
  | Invocation.SetReal f c vr nvr value => GoFmu.SetReal lib f c vr nvr value w
  | Invocation.SetInteger f c vr nvr value => GoFmu.SetInteger lib f c vr nvr value w
  | Invocation.SetBoolean f c vr nvr value => GoFmu.SetBoolean lib f c vr nvr value w
  | Invocation.SetString f c vr nvr value => GoFmu.SetString lib f c vr nvr value w
  | Invocation.SetRealInputDerivatives f c vr nvr order value =>
      GoFmu.SetRealInputDerivatives lib f c vr nvr order value w
  | Invocation.GetFMUstate f c FMUstate => GoFmu.GetFMUstate lib f c FMUstate w
  | Invocation.SetFMUstate f c FMUstate => GoFmu.SetFMUstate lib f c FMUstate w
  | Invocation.FreeFMUstate f c FMUstate => GoFmu.FreeFMUstate lib f c FMUstate w
  | Invocation.SerializedFMUstateSize f c FMUstate size =>
      GoFmu.SerializedFMUstateSize lib f c FMUstate size w
  | Invocation.SerializeFMUstate f c FMUstate serializedState size =>
      GoFmu.SerializeFMUstate lib f c FMUstate serializedState size w
  | Invocation.DeSerializeFMUstate f c serializedState size FMUstate =>
      GoFmu.DeSerializeFMUstate lib f c serializedState size FMUstate w
  | Invocation.DoStep f c currentCommunicationPoint communicationStepSize
      noSetFMUStatePriorToCurrentPoint =>
      
      GoFmu.DoStep lib f c currentCommunicationPoint communicationStepSize
        noSetFMUStatePriorToCurrentPoint w
  | Invocation.CancelStep f c => GoFmu.CancelStep lib f c w
  | Invocation.GetStatus f c s value => GoFmu.GetStatus lib f c s value w
  | Invocation.GetRealStatus f c s value => GoFmu.GetRealStatus lib f c s value w
  | Invocation.GetIntegerStatus f c s value => GoFmu.GetIntegerStatus lib f c s value w
  | Invocation.GetBooleanStatus f c s value => GoFmu.GetBooleanStatus lib f c s value w
  | Invocation.GetStringStatus f c s value => GoFmu.GetStringStatus lib f c s value w
  | Invocation.EnterEventMode f c => GoFmu.EnterEventMode lib f c w
  | Invocation.EnterContinuousTimeMode f c => GoFmu.EnterContinuousTimeMode lib f c w
  | Invocation.SetTime f c time => GoFmu.SetTime lib f c time w
  | Invocation.GetDerivatives f c derivatives nx => GoFmu.GetDerivatives lib f c derivatives nx w
  | Invocation.GetEventIndicators f c eventIndicators ni =>
      GoFmu.GetEventIndicators lib f c eventIndicators ni w
  | Invocation.NewDiscreteStates f c eventInfo => GoFmu.NewDiscreteStates lib f c eventInfo w
  | Invocation.GetContinuousStates f c states nx => GoFmu.GetContinuousStates lib f c states nx w
  | Invocation.SetContinuousStates f c x nx => GoFmu.SetContinuousStates lib f c x nx w
  | Invocation.GetNominalsOfContinuousStates f c x_nominal nx =>
      GoFmu.GetNominalsOfContinuousStates lib f c x_nominal nx w
  | Invocation.GetDirectionalDerivative f c z_ref nz v_ref nv dv dz =>
      GoFmu.GetDirectionalDerivative lib f c z_ref nz v_ref nv dv dz w
  | Invocation.CompletedIntegratorStep f c noSetFMUStatePriorToCurrentPoint enterEventMode
      terminateSimulation =>
      
      GoFmu.CompletedIntegratorStep lib f c noSetFMUStatePriorToCurrentPoint enterEventMode
        terminateSimulation w

/-- The one wrapper that returns `void`. -/
def Invocation.returnsVoid : Invocation → Bool
  | Invocation.FreeInstance _ _ => true
  | _ => false

/-- Whether the adapter call is `Instantiate`. -/
def Invocation.isInstantiate : Invocation → Bool
  | Invocation.Instantiate _ _ _ _ _ _ _ _ => true
  | _ => false

/-- The arguments that reach the native function: those the wrapper was
given, except that `Instantiate` puts the address of its own struct in the
place of `functions`. -/
def Invocation.forwarded : Invocation → List Value
  | Invocation.Instantiate _ instanceName fmuType fmuGUID fmuResourceLocation _ visible loggingOn =>
      [Value.ptr instanceName, Value.fmuType fmuType, Value.ptr fmuGUID,
        Value.ptr fmuResourceLocation, Value.callbacks (some Instantiate.callbacks),
        Value.boolean visible, Value.boolean loggingOn]
  | inv => inv.arguments

/-- The host makes the adapter calls of a list one after the other.  A
fault ends the process, so the calls after it are not made.  The result is
the outcome of each call made, in order, and the world at the end. -/
def runSeq {σ : Type} (lib : Library σ) :
    List Invocation → World σ → List Outcome × World σ
  | [], w => ([], w)
  | inv :: rest, w =>
    match run lib inv w with
    | (Outcome.fault, w1) => ([Outcome.fault], w1)
    | (Outcome.returned v, w1) =>
      (Outcome.returned v :: (runSeq lib rest w1).1, (runSeq lib rest w1).2)

/-- The callback struct a call event hands to the native function, if it
hands one. -/
def Event.callbacksArg : Event → Option fmi2CallbackFunctions
  | Event.call _ args =>
    args.findSome? (fun v => match v with
      | Value.callbacks p => p
      | _ => none)
  | _ => none

/-! ## The lifecycle rules of the spec, for comparison -/

/-- The component handle an adapter call is about: the first argument after
`f`, for the wrappers that take one. -/
def Invocation.component : Invocation → Option fmi2Component
  | Invocation.GetTypesPlatform _ => none
  | Invocation.GetVersion _ => none
  | Invocation.Instantiate _ _ _ _ _ _ _ _ => none
  | inv =>
    match inv.arguments with
    | Value.ptr c :: _ => some c
    | _ => none

/-- Whether the adapter call is `DoStep`. -/
def Invocation.isDoStep : Invocation → Bool
  | Invocation.DoStep _ _ _ _ _ => true
  | _ => false

/-- Whether the adapter call is `ExitInitializationMode`. -/
def Invocation.isExitInitializationMode : Invocation → Bool
  | Invocation.ExitInitializationMode _ _ => true
  | _ => false

/-- Follows the spec, not the code: the two kinds of illegal sequence the
spec names, a `DoStep` on a component for which `ExitInitializationMode`
has not yet been called, and any call on a component after its
`FreeInstance`.  `exited` and `freed` are the components for which
`ExitInitializationMode` and `FreeInstance` were called so far. -/
def Spec.illegalFrom (exited freed : List fmi2Component) : List Invocation → Bool
  | [] => false
  | inv :: rest =>
    match inv.component with
    | none => Spec.illegalFrom exited freed rest
    | some c =>
      if freed.contains c then true
      else if inv.isDoStep && !exited.contains c then true
      else
        Spec.illegalFrom (if inv.isExitInitializationMode then c :: exited else exited)
          (if inv.returnsVoid then c :: freed else freed) rest

/-- Follows the spec, not the code: a call sequence that is illegal by one
of the two rules of `Spec.illegalFrom`, from the start of the process. -/
def Spec.illegal (calls : List Invocation) : Bool :=
  Spec.illegalFrom [] [] calls

/-! ## The co-simulation scenario of the spec -/

/-- Position of the highest set bit of `n`, by halving at most `fuel`
times. -/
def highBit : Nat → Nat → Nat
  | 0, _ => 0
  | fuel + 1, n => if n < 2 then 0 else highBit fuel (n / 2) + 1

/-- The `double` that holds the natural number `n`, as its 64-bit pattern
(exact below 2^53): what the host passes for the literals `0`, `1`, `10`
of the scenario. -/
def doubleOfNat (n : Nat) : fmi2Real :=
  if n = 0 then 0
  else (1023 + highBit 64 n) * 2 ^ 52 + (n - 2 ^ highBit 64 n) * 2 ^ (52 - highBit 64 n)

/-- The addresses the resolver found for the entry points the scenario
uses. -/
structure EntryPoints where
  fmi2Instantiate : Addr
  fmi2SetupExperiment : Addr
  fmi2EnterInitializationMode : Addr
  fmi2ExitInitializationMode : Addr
  fmi2DoStep : Addr
  fmi2Terminate : Addr
  fmi2FreeInstance : Addr

/-- The scenario after `Instantiate` returned the handle `h`:
SetupExperiment(tStart = 0, tStopDefined, tStop = 10), EnterInitializationMode,
ExitInitializationMode, DoStep(k, 1, false) for k = 0..9, Terminate,
FreeInstance. -/
def scenarioCalls (e : EntryPoints) (h : fmi2Component) : List Invocation :=
  [Invocation.SetupExperiment e.fmi2SetupExperiment h 0 (doubleOfNat 0) (doubleOfNat 0) 1
      (doubleOfNat 10),
    Invocation.EnterInitializationMode e.fmi2EnterInitializationMode h,
    Invocation.ExitInitializationMode e.fmi2ExitInitializationMode h]
  ++ (List.range 10).map
      (fun k => Invocation.DoStep e.fmi2DoStep h (doubleOfNat k) (doubleOfNat 1) 0)
  ++ [Invocation.Terminate e.fmi2Terminate h,
    Invocation.FreeInstance e.fmi2FreeInstance h]

/-- The whole scenario: `Instantiate` a co-simulation FMU, then the calls of
`scenarioCalls` on the handle it returned.  When `Instantiate` does not
return a handle the scenario ends there. -/
def scenario {σ : Type} (lib : Library σ) (e : EntryPoints)
    (instanceName fmuGUID fmuResourceLocation : fmi2String)
    (functions : Option fmi2CallbackFunctions) (w : World σ) : List Outcome × World σ :=
  match Instantiate lib e.fmi2Instantiate instanceName fmi2Type.fmi2CoSimulation fmuGUID
      fmuResourceLocation functions 0 0 w with
  | (Outcome.returned (Value.ptr h), w1) =>
    (Outcome.returned (Value.ptr h) :: (runSeq lib (scenarioCalls e h) w1).1,
      (runSeq lib (scenarioCalls e h) w1).2)
  | (o, w1) => ([o], w1)

/-- A well-behaved FMU stub whose state counts the calls made to it: the
function at address 1 (instantiate) returns the handle 100, the function
at address 7 (free instance) returns nothing, and the function at every
other address returns `fmi2OK`. -/
def stubLibrary : Library Nat :=
  { code := fun a => some (fun _ n =>
      (if a = 1 then Value.ptr 100
        else if a = 7 then Value.void else Value.status fmi2Status.fmi2OK, n + 1)) }

/-- Where `stubLibrary` has the entry points of the scenario. -/
def stubEntryPoints : EntryPoints :=
  { fmi2Instantiate := 1
    fmi2SetupExperiment := 2
    fmi2EnterInitializationMode := 3
    fmi2ExitInitializationMode := 4
    fmi2DoStep := 5
    fmi2Terminate := 6
    fmi2FreeInstance := 7 }

/-- A callback struct the host could pass to `Instantiate`: its own logger
and step-finished functions and the environment token 7. -/
def hostCallbacks : fmi2CallbackFunctions :=
  { logger := FunPtr.Logger
    allocateMemory := FunPtr.calloc
    freeMemory := FunPtr.free
    stepFinished := FunPtr.StepFinished
    componentEnvironment := 7 }

/-- The address `f` has a function behind it that returns `v` whatever it
is called with. -/
def Library.returns {σ : Type} (lib : Library σ) (f : Addr) (v : Value) : Prop :=
  ∃ g, lib.fn f = some g ∧ ∀ args s, (g args s).1 = v

/-! ## Lemmas on calls through a function pointer -/

theorem fn_NULL {σ : Type} (lib : Library σ) : lib.fn NULL = none := by
  simp [Library.fn]

theorem callThrough_some {σ : Type} (lib : Library σ) (f : Addr) (args : List Value)
    (w : World σ) (g : NativeFn σ) (hg : lib.fn f = some g) :
    callThrough lib f args w
      = (Outcome.returned (g args w.fmu).1,
          { fmu := (g args w.fmu).2, trace := w.trace ++ [Event.call f args] }) := by
  simp [callThrough, hg]

theorem callThrough_none {σ : Type} (lib : Library σ) (f : Addr) (args : List Value)
    (w : World σ) (hg : lib.fn f = none) :
    callThrough lib f args w
      = (Outcome.fault, { fmu := w.fmu, trace := w.trace ++ [Event.call f args] }) := by
  simp [callThrough, hg]

theorem callThroughVoid_some {σ : Type} (lib : Library σ) (f : Addr) (args : List Value)
    (w : World σ) (g : NativeFn σ) (hg : lib.fn f = some g) :
    callThroughVoid lib f args w
      = (Outcome.returned Value.void,
          { fmu := (g args w.fmu).2, trace := w.trace ++ [Event.call f args] }) := by
  simp [callThroughVoid, callThrough_some lib f args w g hg]

theorem callThroughVoid_none {σ : Type} (lib : Library σ) (f : Addr) (args : List Value)
    (w : World σ) (hg : lib.fn f = none) :
    callThroughVoid lib f args w
      = (Outcome.fault, { fmu := w.fmu, trace := w.trace ++ [Event.call f args] }) := by
  simp [callThroughVoid, callThrough_none lib f args w hg]

/-- Every wrapper is one call through its `f` with the forwarded
arguments. -/
theorem run_eq_call {σ : Type} (lib : Library σ) (inv : Invocation) (w : World σ) :
    run lib inv w
      = if inv.returnsVoid then callThroughVoid lib inv.f inv.forwarded w
        else callThrough lib inv.f inv.forwarded w := by
  cases inv <;> rfl

theorem forwarded_eq_arguments (inv : Invocation) (h : inv.isInstantiate = false) :
    inv.forwarded = inv.arguments := by
  cases inv <;> first | rfl | simp [Invocation.isInstantiate] at h

/-- A wrapper whose `f` has a function behind it: the value, the native
state and the trace afterwards. -/
theorem run_some {σ : Type} (lib : Library σ) (inv : Invocation) (w : World σ)
    (g : NativeFn σ) (hg : lib.fn inv.f = some g) :
    run lib inv w
      = (Outcome.returned
            (if inv.returnsVoid then Value.void else (g inv.forwarded w.fmu).1),
          { fmu := (g inv.forwarded w.fmu).2
            trace := w.trace ++ [Event.call inv.f inv.forwarded] }) := by
  rw [run_eq_call]
  by_cases hv : inv.returnsVoid = true
  · simp [hv, callThroughVoid_some lib inv.f inv.forwarded w g hg]
  · simp [hv, callThrough_some lib inv.f inv.forwarded w g hg]

/-- A wrapper whose `f` has no function behind it: the call is made and is
a fault. -/
theorem run_none {σ : Type} (lib : Library σ) (inv : Invocation) (w : World σ)
    (hg : lib.fn inv.f = none) :
    run lib inv w
      = (Outcome.fault,
          { fmu := w.fmu, trace := w.trace ++ [Event.call inv.f inv.forwarded] }) := by
  rw [run_eq_call]
  by_cases hv : inv.returnsVoid = true
  · simp [hv, callThroughVoid_none lib inv.f inv.forwarded w hg]
  · simp [hv, callThrough_none lib inv.f inv.forwarded w hg]

/-- The trace after a wrapper, whatever is behind `f`. -/
theorem run_trace {σ : Type} (lib : Library σ) (inv : Invocation) (w : World σ) :
    (run lib inv w).2.trace = w.trace ++ [Event.call inv.f inv.forwarded] := by
  cases hg : lib.fn inv.f with
  | none => rw [run_none lib inv w hg]
  | some g => rw [run_some lib inv w g hg]

/-! ## C1: pass-through fidelity -/

/-- C1.  For every wrapper other than `Instantiate`, every native function
`g` behind `f`, every argument tuple and every world: the wrapper makes
exactly one call, the call through `f` with the arguments it was given in
the order it was given them; the native state afterwards is the one that
single run of `g` leaves; and the wrapper returns the value `g` returned
(`FreeInstance`, whose C type is `void`, returns nothing).  In particular
each of the six status values comes back as it is. -/
theorem C1_pass_through {σ : Type} (lib : Library σ) (inv : Invocation) (w : World σ)
    (g : NativeFn σ) (hinv : inv.isInstantiate = false) (hg : lib.fn inv.f = some g) :
    run lib inv w
        = (Outcome.returned
              (if inv.returnsVoid then Value.void else (g inv.arguments w.fmu).1),
            { fmu := (g inv.arguments w.fmu).2
              trace := w.trace ++ [Event.call inv.f inv.arguments] })
      ∧ ∀ s : fmi2Status, inv.returnsVoid = false →
          (g inv.arguments w.fmu).1 = Value.status s →
          (run lib inv w).1 = Outcome.returned (Value.status s) := by
  have h := run_some lib inv w g hg
  rw [forwarded_eq_arguments inv hinv] at h
  refine ⟨h, ?_⟩
  intro s hv hs
  rw [h]
  simp [hv, hs]

/-- C1 at a concrete call: `DoStep` through address 5 of the stub, on the
handle 100, in a world where the stub was called three times. -/
theorem C1_pass_through_witness :
    (Invocation.DoStep 5 100 (doubleOfNat 0) (doubleOfNat 1) 0).isInstantiate = false
      ∧ stubLibrary.fn 5
          = some (fun _ n => (Value.status fmi2Status.fmi2OK, n + 1))
      ∧ run stubLibrary (Invocation.DoStep 5 100 (doubleOfNat 0) (doubleOfNat 1) 0)
            { fmu := 3, trace := [] }
          = (Outcome.returned (Value.status fmi2Status.fmi2OK),
              { fmu := 4
                trace := [Event.call 5 [Value.ptr 100, Value.real (doubleOfNat 0),
                  Value.real (doubleOfNat 1), Value.boolean 0]] }) :=
  ⟨rfl, rfl,
    (C1_pass_through stubLibrary (Invocation.DoStep 5 100 (doubleOfNat 0) (doubleOfNat 1) 0)
      { fmu := 3, trace := [] } (fun _ n => (Value.status fmi2Status.fmi2OK, n + 1))
      rfl rfl).1⟩

/-! ## C7: the step-finished callback -/

/-- C7.  For every environment token and every status, `StepFinished` makes
exactly one call, the call of `goStepFinished` with that environment and
that status, and nothing else; spelled out for each of the six status
values. -/
theorem C7_step_finished (componentEnvironment : fmi2ComponentEnvironment) :
    (∀ status : fmi2Status,
        StepFinished componentEnvironment status
          = [Event.goStepFinished componentEnvironment status])
      ∧ StepFinished componentEnvironment fmi2Status.fmi2OK
          = [Event.goStepFinished componentEnvironment fmi2Status.fmi2OK]
      ∧ StepFinished componentEnvironment fmi2Status.fmi2Warning
          = [Event.goStepFinished componentEnvironment fmi2Status.fmi2Warning]
      ∧ StepFinished componentEnvironment fmi2Status.fmi2Discard
          = [Event.goStepFinished componentEnvironment fmi2Status.fmi2Discard]
      ∧ StepFinished componentEnvironment fmi2Status.fmi2Error
          = [Event.goStepFinished componentEnvironment fmi2Status.fmi2Error]
      ∧ StepFinished componentEnvironment fmi2Status.fmi2Fatal
          = [Event.goStepFinished componentEnvironment fmi2Status.fmi2Fatal]
      ∧ StepFinished componentEnvironment fmi2Status.fmi2Pending
          = [Event.goStepFinished componentEnvironment fmi2Status.fmi2Pending] :=
  ⟨fun _ => rfl, rfl, rfl, rfl, rfl, rfl, rfl⟩

/-! ## C9 and C5: the callback struct of `Instantiate` -/

/-- C9.  `Instantiate` does not look at `functions`: two calls that agree
on everything else are the same call.  The native function is called
exactly once, with the six other arguments as given and the struct
{logger = Logger, allocateMemory = calloc, freeMemory = free,
stepFinished = NULL, componentEnvironment = NULL}, and the handle it
returns is returned as it is. -/
theorem C9_instantiate_ignores_functions {σ : Type} (lib : Library σ) (f : Addr)
    (instanceName : fmi2String) (fmuType : fmi2Type) (fmuGUID fmuResourceLocation : fmi2String)
    (functions₁ functions₂ : Option fmi2CallbackFunctions) (visible loggingOn : fmi2Boolean)
    (w : World σ) (g : NativeFn σ) (hg : lib.fn f = some g) :
    Instantiate lib f instanceName fmuType fmuGUID fmuResourceLocation functions₁ visible
          loggingOn w
        = Instantiate lib f instanceName fmuType fmuGUID fmuResourceLocation functions₂ visible
          loggingOn w
      ∧ Instantiate lib f instanceName fmuType fmuGUID fmuResourceLocation functions₁ visible
          loggingOn w
        = (Outcome.returned
              (g [Value.ptr instanceName, Value.fmuType fmuType, Value.ptr fmuGUID,
                  Value.ptr fmuResourceLocation,
                  Value.callbacks (some
                    { logger := FunPtr.Logger
                      allocateMemory := FunPtr.calloc
                      freeMemory := FunPtr.free
                      stepFinished := FunPtr.null
                      componentEnvironment := NULL }),
                  Value.boolean visible, Value.boolean loggingOn] w.fmu).1,
            { fmu :=
                (g [Value.ptr instanceName, Value.fmuType fmuType, Value.ptr fmuGUID,
                  Value.ptr fmuResourceLocation,
                  Value.callbacks (some
                    { logger := FunPtr.Logger
                      allocateMemory := FunPtr.calloc
                      freeMemory := FunPtr.free
                      stepFinished := FunPtr.null
                      componentEnvironment := NULL }),
                  Value.boolean visible, Value.boolean loggingOn] w.fmu).2
              trace := w.trace ++
                [Event.call f
                  [Value.ptr instanceName, Value.fmuType fmuType, Value.ptr fmuGUID,
                    Value.ptr fmuResourceLocation,
                    Value.callbacks (some
                      { logger := FunPtr.Logger
                        allocateMemory := FunPtr.calloc
                        freeMemory := FunPtr.free
                        stepFinished := FunPtr.null
                        componentEnvironment := NULL }),
                    Value.boolean visible, Value.boolean loggingOn]] }) := by
  refine ⟨rfl, ?_⟩
  simp [Instantiate, Instantiate.callbacks, callThrough_some lib f _ w g hg]

/-- C9 at a concrete call: the stub instantiated once with no callback
struct and once with `hostCallbacks`. -/
theorem C9_instantiate_ignores_functions_witness :
    stubLibrary.fn 1 = some (fun _ n => (Value.ptr 100, n + 1))
      ∧ Instantiate stubLibrary 1 10 fmi2Type.fmi2CoSimulation 11 12 none 0 1
            { fmu := 0, trace := [] }
          = Instantiate stubLibrary 1 10 fmi2Type.fmi2CoSimulation 11 12 (some hostCallbacks) 0 1
            { fmu := 0, trace := [] }
      ∧ (Instantiate stubLibrary 1 10 fmi2Type.fmi2CoSimulation 11 12 none 0 1
            { fmu := 0, trace := [] }).1 = Outcome.returned (Value.ptr 100) :=
  ⟨rfl,
    (C9_instantiate_ignores_functions stubLibrary 1 10 fmi2Type.fmi2CoSimulation 11 12 none
      (some hostCallbacks) 0 1 { fmu := 0, trace := [] } (fun _ n => (Value.ptr 100, n + 1))
      rfl).1,
    congrArg Prod.fst
      (C9_instantiate_ignores_functions stubLibrary 1 10 fmi2Type.fmi2CoSimulation 11 12 none
        (some hostCallbacks) 0 1 { fmu := 0, trace := [] } (fun _ n => (Value.ptr 100, n + 1))
        rfl).2⟩

/-- C5 fails as stated: the host passes `hostCallbacks`, which carries the
environment token 7 and a step-finished function, and the struct that
reaches the native instantiate function has the environment `NULL`, which
is not 7, and no step-finished function. -/
theorem C5_counterexample :
    hostCallbacks.componentEnvironment = 7
      ∧ hostCallbacks.stepFinished = FunPtr.StepFinished
      ∧ ((Instantiate stubLibrary 1 10 fmi2Type.fmi2CoSimulation 11 12 (some hostCallbacks) 0 0
            { fmu := 0, trace := [] }).2.trace.map Event.callbacksArg)
          = [some { logger := FunPtr.Logger
                    allocateMemory := FunPtr.calloc
                    freeMemory := FunPtr.free
                    stepFinished := FunPtr.null
                    componentEnvironment := NULL }]
      ∧ ¬ (∀ cb ∈ ((Instantiate stubLibrary 1 10 fmi2Type.fmi2CoSimulation 11 12
            (some hostCallbacks) 0 0 { fmu := 0, trace := [] }).2.trace.filterMap
              Event.callbacksArg),
            cb.componentEnvironment = hostCallbacks.componentEnvironment) := by
  decide

/-- C5 as amended.  Whatever callback struct `functions` the host passes,
and whatever environment token it carries, the one call `Instantiate` makes
hands the native function a struct whose environment pointer is `NULL`,
whose step-finished pointer is `NULL` and whose logger is `Logger`; a
`Logger` callback the FMU later fires with the environment of that struct
therefore reaches `goLogger` with the environment `NULL`. -/
theorem C5_instantiate_callbacks {σ : Type} (lib : Library σ) (f : Addr)
    (instanceName : fmi2String) (fmuType : fmi2Type) (fmuGUID fmuResourceLocation : fmi2String)
    (functions : Option fmi2CallbackFunctions) (visible loggingOn : fmi2Boolean)
    (w : World σ) :
    ∃ cb : fmi2CallbackFunctions,
      (Instantiate lib f instanceName fmuType fmuGUID fmuResourceLocation functions visible
          loggingOn w).2.trace
        = w.trace ++ [Event.call f
            [Value.ptr instanceName, Value.fmuType fmuType, Value.ptr fmuGUID,
              Value.ptr fmuResourceLocation, Value.callbacks (some cb),
              Value.boolean visible, Value.boolean loggingOn]]
      ∧ cb.componentEnvironment = NULL
      ∧ cb.stepFinished = FunPtr.null
      ∧ cb.logger = FunPtr.Logger
      ∧ ∀ (α : Type) (cformat : Formatter α) (stack : List Char)
          (name category : fmi2String) (status : fmi2Status) (message : List Char) (ap : α),
          ∃ text,
            (Logger cformat stack cb.componentEnvironment name status category message ap).1
              = [Event.goLogger NULL name status category text] := by
  refine ⟨Instantiate.callbacks, ?_, rfl, rfl, rfl, ?_⟩
  · exact run_trace lib (Invocation.Instantiate f instanceName fmuType fmuGUID
      fmuResourceLocation functions visible loggingOn) w
  · intro α cformat stack name category status message ap
    exact ⟨_, rfl⟩

/-! ## C6: a null entry-point address -/

/-- C6 fails as stated: `DoStep` with a null `f` goes through `f` all the
same.  The trace holds the call through address `NULL` with the arguments,
and the wrapper ends in a fault, not in a rejection made before the call;
`GetVersion` likewise. -/
theorem C6_counterexample :
    DoStep stubLibrary NULL 100 (doubleOfNat 0) (doubleOfNat 1) 0 { fmu := 0, trace := [] }
        = (Outcome.fault,
            { fmu := 0
              trace := [Event.call NULL [Value.ptr 100, Value.real (doubleOfNat 0),
                Value.real (doubleOfNat 1), Value.boolean 0]] })
      ∧ GetVersion stubLibrary NULL { fmu := 0, trace := [] }
        = (Outcome.fault, { fmu := 0, trace := [Event.call NULL []] }) :=
  ⟨rfl, rfl⟩

/-- C6 as amended.  No wrapper tests `f`.  With a null `f` every wrapper
still makes its call through `f` with its arguments: the trace grows by
that call, no native function runs (the native state stays as it was) and
the wrapper ends in a fault.  Keeping null addresses away is left to the
caller. -/
theorem C6_null_address_not_checked {σ : Type} (lib : Library σ) (inv : Invocation)
    (w : World σ) (hnull : inv.f = NULL) :
    run lib inv w
      = (Outcome.fault,
          { fmu := w.fmu, trace := w.trace ++ [Event.call NULL inv.forwarded] }) := by
  have h := run_none lib inv w (by rw [hnull]; exact fn_NULL lib)
  rw [hnull] at h
  exact h

/-- C6 as amended, at a concrete call: `Terminate` with a null `f`. -/
theorem C6_null_address_not_checked_witness :
    (Invocation.Terminate NULL 100).f = NULL
      ∧ run stubLibrary (Invocation.Terminate NULL 100) { fmu := 2, trace := [] }
          = (Outcome.fault, { fmu := 2, trace := [Event.call NULL [Value.ptr 100]] }) :=
  ⟨rfl, C6_null_address_not_checked stubLibrary (Invocation.Terminate NULL 100)
    { fmu := 2, trace := [] } rfl⟩

/-! ## Lemmas on sequences of adapter calls -/

/-- A sequence of calls whose addresses all have a function behind them,
each returning the value `ret` names for it: every call is made, in order,
and returns that value. -/
theorem runSeq_callable {σ : Type} (lib : Library σ) (ret : Invocation → Value)
    (calls : List Invocation) :
    ∀ w : World σ,
      (∀ inv ∈ calls, ∃ g, lib.fn inv.f = some g ∧
        ∀ s, inv.returnsVoid = false → (g inv.forwarded s).1 = ret inv) →
      (runSeq lib calls w).1
          = calls.map (fun inv =>
              Outcome.returned (if inv.returnsVoid then Value.void else ret inv))
        ∧ (runSeq lib calls w).2.trace
          = w.trace ++ calls.map (fun inv => Event.call inv.f inv.forwarded) := by
  induction calls with
  | nil => intro w _; simp [runSeq]
  | cons inv rest ih =>
    intro w hall
    obtain ⟨g, hg, hret⟩ := hall inv (List.mem_cons_self inv rest)
    have hrest := ih { fmu := (g inv.forwarded w.fmu).2
                       trace := w.trace ++ [Event.call inv.f inv.forwarded] }
      (fun i hi => hall i (List.mem_cons_of_mem inv hi))
    have hrun := run_some lib inv w g hg
    by_cases hv : inv.returnsVoid = true
    · simp only [runSeq, hrun, hv, if_true, List.map_cons]
      simp only [hv, if_true] at hrest
      exact ⟨by rw [hrest.1], by rw [hrest.2]; simp⟩
    · have hv' : inv.returnsVoid = false := by simpa using hv
      simp only [runSeq, hrun, List.map_cons]
      exact ⟨by rw [hrest.1, hv', hret w.fmu hv'], by rw [hrest.2]; simp⟩

/-! ## C2: the lifecycle is not enforced -/

/-- C2 fails as stated: two call sequences that are illegal by the spec,
a `DoStep` as the first call on a component and a `GetReal` after
`FreeInstance`, both on the stub.  No call is turned away: each reaches
its native function (the trace holds the call and the stub counted it) and
returns what the stub returned. -/
theorem C2_counterexample :
    Spec.illegal [Invocation.DoStep 5 100 (doubleOfNat 0) (doubleOfNat 1) 0] = true
      ∧ runSeq stubLibrary [Invocation.DoStep 5 100 (doubleOfNat 0) (doubleOfNat 1) 0]
            { fmu := 0, trace := [] }
          = ([Outcome.returned (Value.status fmi2Status.fmi2OK)],
              { fmu := 1
                trace := [Event.call 5 [Value.ptr 100, Value.real (doubleOfNat 0),
                  Value.real (doubleOfNat 1), Value.boolean 0]] })
      ∧ Spec.illegal [Invocation.FreeInstance 7 100, Invocation.GetReal 8 100 20 1 21] = true
      ∧ runSeq stubLibrary [Invocation.FreeInstance 7 100, Invocation.GetReal 8 100 20 1 21]
            { fmu := 0, trace := [] }
          = ([Outcome.returned Value.void, Outcome.returned (Value.status fmi2Status.fmi2OK)],
              { fmu := 2
                trace := [Event.call 7 [Value.ptr 100],
                  Event.call 8 [Value.ptr 100, Value.ptr 20, Value.size 1, Value.ptr 21]] }) :=
  ⟨rfl, rfl, rfl, rfl⟩

/-- C2 as amended.  The adapter keeps no lifecycle state and turns no call
away: for every call sequence, legal or not, whose entry-point addresses
have a function behind them, every call of the sequence is made, one
native call per adapter call in the order of the sequence, and none ends
in an error of the adapter.  Keeping to the lifecycle is left to the
caller. -/
theorem C2_every_call_forwarded {σ : Type} (lib : Library σ) (calls : List Invocation)
    (w : World σ) (hcallable : ∀ inv ∈ calls, ∃ g, lib.fn inv.f = some g) :
    (runSeq lib calls w).2.trace
        = w.trace ++ calls.map (fun inv => Event.call inv.f inv.forwarded)
      ∧ (runSeq lib calls w).1.length = calls.length
      ∧ ∀ o ∈ (runSeq lib calls w).1, o ≠ Outcome.fault := by
  induction calls generalizing w with
  | nil => simp [runSeq]
  | cons inv rest ih =>
    obtain ⟨g, hg⟩ := hcallable inv (List.mem_cons_self inv rest)
    have hrest := ih { fmu := (g inv.forwarded w.fmu).2
                       trace := w.trace ++ [Event.call inv.f inv.forwarded] }
      (fun i hi => hcallable i (List.mem_cons_of_mem inv hi))
    simp only [runSeq, run_some lib inv w g hg, List.map_cons, List.length_cons]
    refine ⟨by rw [hrest.1]; simp, by rw [hrest.2.1], ?_⟩
    intro o ho
    rcases List.mem_cons.mp ho with h | h
    · rw [h]; simp
    · exact hrest.2.2 o h

/-- C2 as amended, at a sequence the spec calls illegal: `FreeInstance`
and then `GetReal` on the same handle. -/
theorem C2_every_call_forwarded_witness :
    (∀ inv ∈ [Invocation.FreeInstance 7 100, Invocation.GetReal 8 100 20 1 21],
        ∃ g, stubLibrary.fn inv.f = some g)
      ∧ (runSeq stubLibrary [Invocation.FreeInstance 7 100, Invocation.GetReal 8 100 20 1 21]
            { fmu := 0, trace := [] }).2.trace
          = [Event.call 7 [Value.ptr 100],
              Event.call 8 [Value.ptr 100, Value.ptr 20, Value.size 1, Value.ptr 21]] :=
  have hc : ∀ inv ∈ [Invocation.FreeInstance 7 100, Invocation.GetReal 8 100 20 1 21],
      ∃ g, stubLibrary.fn inv.f = some g := by
    intro inv hinv
    simp only [List.mem_cons, List.mem_singleton, List.not_mem_nil, or_false] at hinv
    rcases hinv with h | h <;> rw [h] <;> exact ⟨_, rfl⟩
  ⟨hc, (C2_every_call_forwarded stubLibrary
    [Invocation.FreeInstance 7 100, Invocation.GetReal 8 100 20 1 21]
    { fmu := 0, trace := [] } hc).1⟩

/-! ## C10: the adapter has no state -/

/-- C8.  Against a library whose instantiate function returns the handle
`h` and whose functions for SetupExperiment, EnterInitializationMode,
ExitInitializationMode, DoStep and Terminate return `fmi2OK` (free
instance returns nothing), the scenario Instantiate, SetupExperiment(0,
tStop 10), EnterInitializationMode, ExitInitializationMode, DoStep(k, 1,
false) for k = 0..9, Terminate, FreeInstance runs to its end: Instantiate
returns `h`, each of the 14 status-returning calls returns `fmi2OK`, the
adapter makes exactly 16 native calls, one per adapter call and in that
order, and each of the 15 calls after Instantiate has `h` as its first
argument. -/
theorem C8_scenario {σ : Type} (lib : Library σ) (e : EntryPoints) (h : fmi2Component)
    (instanceName fmuGUID fmuResourceLocation : fmi2String)
    (functions : Option fmi2CallbackFunctions) (w : World σ)
    (hinst : lib.returns e.fmi2Instantiate (Value.ptr h))
    (hsetup : lib.returns e.fmi2SetupExperiment (Value.status fmi2Status.fmi2OK))
    (henter : lib.returns e.fmi2EnterInitializationMode (Value.status fmi2Status.fmi2OK))
    (hexit : lib.returns e.fmi2ExitInitializationMode (Value.status fmi2Status.fmi2OK))
    (hstep : lib.returns e.fmi2DoStep (Value.status fmi2Status.fmi2OK))
    (hterm : lib.returns e.fmi2Terminate (Value.status fmi2Status.fmi2OK))
    (hfree : ∃ g, lib.fn e.fmi2FreeInstance = some g) :
    (scenario lib e instanceName fmuGUID fmuResourceLocation functions w).1
        = Outcome.returned (Value.ptr h)
          :: (List.replicate 14 (Outcome.returned (Value.status fmi2Status.fmi2OK))
              ++ [Outcome.returned Value.void])
      ∧ (scenario lib e instanceName fmuGUID fmuResourceLocation functions w).2.trace
        = w.trace ++
          Event.call e.fmi2Instantiate
              [Value.ptr instanceName, Value.fmuType fmi2Type.fmi2CoSimulation,
                Value.ptr fmuGUID, Value.ptr fmuResourceLocation,
                Value.callbacks (some Instantiate.callbacks), Value.boolean 0, Value.boolean 0]
            :: (scenarioCalls e h).map (fun inv => Event.call inv.f inv.arguments)
      ∧ (scenario lib e instanceName fmuGUID fmuResourceLocation functions w).2.trace.length
        = w.trace.length + 16
      ∧ (scenarioCalls e h).map (fun inv => inv.arguments.head?)
        = List.replicate 15 (some (Value.ptr h)) := by
  obtain ⟨gi, hgi, hri⟩ := hinst
  have hcalls : ∀ inv ∈ scenarioCalls e h, ∃ g, lib.fn inv.f = some g ∧
      ∀ s, inv.returnsVoid = false →
        (g inv.forwarded s).1 = Value.status fmi2Status.fmi2OK := by
    intro inv hinv
    simp only [scenarioCalls, List.mem_append, List.mem_cons, List.mem_singleton,
      List.not_mem_nil, or_false, List.mem_map] at hinv
    rcases hinv with ((h1 | h1 | h1) | ⟨k, _, h1⟩) | (h1 | h1)
    · subst h1; obtain ⟨g, hg, hr⟩ := hsetup; exact ⟨g, hg, fun s _ => hr _ s⟩
    · subst h1; obtain ⟨g, hg, hr⟩ := henter; exact ⟨g, hg, fun s _ => hr _ s⟩
    · subst h1; obtain ⟨g, hg, hr⟩ := hexit; exact ⟨g, hg, fun s _ => hr _ s⟩
    · subst h1; obtain ⟨g, hg, hr⟩ := hstep; exact ⟨g, hg, fun s _ => hr _ s⟩
    · subst h1; obtain ⟨g, hg, hr⟩ := hterm; exact ⟨g, hg, fun s _ => hr _ s⟩
    · subst h1; obtain ⟨g, hg⟩ := hfree
      exact ⟨g, hg, fun s hv => by simp [Invocation.returnsVoid] at hv⟩
  have hI : ∃ w1 : World σ,
      callThrough lib e.fmi2Instantiate
          [Value.ptr instanceName, Value.fmuType fmi2Type.fmi2CoSimulation, Value.ptr fmuGUID,
            Value.ptr fmuResourceLocation, Value.callbacks (some Instantiate.callbacks),
            Value.boolean 0, Value.boolean 0] w
        = (Outcome.returned (Value.ptr h), w1)
      ∧ w1.trace = w.trace ++ [Event.call e.fmi2Instantiate
          [Value.ptr instanceName, Value.fmuType fmi2Type.fmi2CoSimulation, Value.ptr fmuGUID,
            Value.ptr fmuResourceLocation, Value.callbacks (some Instantiate.callbacks),
            Value.boolean 0, Value.boolean 0]] := by
    rw [callThrough_some lib e.fmi2Instantiate _ w gi hgi, hri]
    exact ⟨_, rfl, rfl⟩
  obtain ⟨w1, hI, hw1⟩ := hI
  have hseq := runSeq_callable lib (fun _ => Value.status fmi2Status.fmi2OK)
    (scenarioCalls e h) w1 hcalls
  have hout : (scenarioCalls e h).map (fun inv =>
      Outcome.returned (if inv.returnsVoid then Value.void
        else Value.status fmi2Status.fmi2OK))
      = List.replicate 14 (Outcome.returned (Value.status fmi2Status.fmi2OK))
          ++ [Outcome.returned Value.void] := rfl
  have hfw : (scenarioCalls e h).map (fun inv => Event.call inv.f inv.forwarded)
      = (scenarioCalls e h).map (fun inv => Event.call inv.f inv.arguments) := rfl
  have hlen : (scenarioCalls e h).length = 15 := rfl
  have hsc : scenario lib e instanceName fmuGUID fmuResourceLocation functions w
      = (Outcome.returned (Value.ptr h) :: (runSeq lib (scenarioCalls e h) w1).1,
          (runSeq lib (scenarioCalls e h) w1).2) := by
    simp only [scenario, Instantiate, hI]
  rw [hsc]
  refine ⟨?_, ?_, ?_, rfl⟩
  · simp only [hseq.1, hout]
  · simp only [hseq.2, hw1, hfw, List.append_assoc, List.singleton_append]
  · simp only [hseq.2, hw1, List.length_append, List.length_map, hlen, List.length_singleton]

/-- C8 on the stub library, whose instantiate function returns the handle
100: the run of the scenario that the theorem describes. -/
theorem C8_scenario_witness :
    stubLibrary.returns stubEntryPoints.fmi2Instantiate (Value.ptr 100)
      ∧ stubLibrary.returns stubEntryPoints.fmi2DoStep (Value.status fmi2Status.fmi2OK)
      ∧ (scenario stubLibrary stubEntryPoints 10 11 12 (some hostCallbacks)
            { fmu := 0, trace := [] }).1
          = Outcome.returned (Value.ptr 100)
            :: (List.replicate 14 (Outcome.returned (Value.status fmi2Status.fmi2OK))
                ++ [Outcome.returned Value.void])
      ∧ (scenario stubLibrary stubEntryPoints 10 11 12 (some hostCallbacks)
            { fmu := 0, trace := [] }).2.trace.length = 0 + 16 :=
  have hc := C8_scenario stubLibrary stubEntryPoints 100 10 11 12 (some hostCallbacks)
    { fmu := 0, trace := [] }
    ⟨_, rfl, fun _ _ => rfl⟩ ⟨_, rfl, fun _ _ => rfl⟩ ⟨_, rfl, fun _ _ => rfl⟩
    ⟨_, rfl, fun _ _ => rfl⟩ ⟨_, rfl, fun _ _ => rfl⟩ ⟨_, rfl, fun _ _ => rfl⟩ ⟨_, rfl⟩
  ⟨⟨_, rfl, fun _ _ => rfl⟩, ⟨_, rfl, fun _ _ => rfl⟩, hc.1, hc.2.2.1⟩

/-! ## C3 and C4: the logger callback -/

theorem cstr_append_NUL (a b : List Char) : cstr (a ++ NUL :: b) = cstr a := by
  induction a with
  | nil => simp [cstr]
  | cons c a ih =>
    unfold cstr at ih ⊢
    by_cases hc : (c != NUL) = true
    · simp [List.takeWhile_cons, hc, ih]
    · simp [List.takeWhile_cons, hc]

theorem cstr_of_no_NUL (a : List Char) (h : ∀ c ∈ a, c ≠ NUL) : cstr a = a := by
  unfold cstr
  rw [List.takeWhile_eq_self_iff]
  intro c hc
  simpa using h c hc

/-- What `vsnprintf` leaves in memory when the formatting has an output. -/
theorem vsnprintf_mem {α : Type} (cformat : Formatter α) (mem format : List Char) (ap : α)
    (r : List Char) (hr : cformat (cstr format) ap = Formatted.output r) :
    (vsnprintf cformat mem 1024 format ap).1
      = r.take 1023 ++ NUL :: mem.drop ((r.take 1023).length + 1) := by
  simp [vsnprintf, hr]

/-- The call `Logger` makes, when the formatting has an output. -/
theorem Logger_events {α : Type} (cformat : Formatter α) (stack : List Char)
    (componentEnvironment : fmi2ComponentEnvironment)
    (instanceName : fmi2String) (status : fmi2Status) (category : fmi2String)
    (message : List Char) (ap : α) (r : List Char)
    (hr : cformat (cstr message) ap = Formatted.output r) :
    (Logger cformat stack componentEnvironment instanceName status category message ap).1
      = [Event.goLogger componentEnvironment instanceName status category
          (cstr (r.take 1023))] := by
  simp only [Logger, vsnprintf_mem cformat stack message ap r hr, cstr_append_NUL]

/-- C3.  Whatever the formatting function of the C library is (every
conversion it knows, the floating ones and those with flags, width or
precision among them) and whatever the format and the argument list: when
the output `r` of the formatting is shorter than the 1024-byte buffer,
`Logger` makes exactly one call, the call of `goLogger` with the environment,
instance name, status and category it was given and with the C string `r`
as the message (a C string ends at its first NUL byte, so this is `r`
itself whenever `r` holds no NUL byte); the buffer holds `r` followed by
the terminator.  In particular the format "value=%d name=%s" with the
arguments 42 and "x" delivers "value=42 name=x". -/
theorem C3_logger_renders {α : Type} (cformat : Formatter α) (stack : List Char)
    (componentEnvironment : fmi2ComponentEnvironment)
    (instanceName : fmi2String) (status : fmi2Status) (category : fmi2String)
    (message : List Char) (ap : α) (r : List Char)
    (hr : cformat (cstr message) ap = Formatted.output r) (hshort : r.length < 1024) :
    (Logger cformat stack componentEnvironment instanceName status category message ap).1
        = [Event.goLogger componentEnvironment instanceName status category (cstr r)]
      ∧ ((∀ c ∈ r, c ≠ NUL) →
          (Logger cformat stack componentEnvironment instanceName status category message
              ap).1
            = [Event.goLogger componentEnvironment instanceName status category r])
      ∧ (Logger cformat stack componentEnvironment instanceName status category message
            ap).2.take (r.length + 1)
          = r ++ [NUL]
      ∧ (Logger exampleFormatter stack componentEnvironment instanceName status category
            "value=%d name=%s".toList [Arg.int 42, Arg.str "x".toList]).1
          = [Event.goLogger componentEnvironment instanceName status category
              "value=42 name=x".toList] := by
  have htake : r.take 1023 = r := List.take_of_length_le (by omega)
  have hev := Logger_events cformat stack componentEnvironment instanceName status category
    message ap r hr
  rw [htake] at hev
  refine ⟨hev, ?_, ?_, ?_⟩
  · intro hn
    rw [hev, cstr_of_no_NUL r hn]
  · simp only [Logger, vsnprintf_mem cformat stack message ap r hr, htake]
    rw [List.take_append_eq_append_take]
    simp [List.take_of_length_le]
  · have hx : exampleFormatter (cstr "value=%d name=%s".toList)
        [Arg.int 42, Arg.str "x".toList]
        = Formatted.output "value=42 name=x".toList := by decide
    have h := Logger_events exampleFormatter stack componentEnvironment instanceName status
      category "value=%d name=%s".toList [Arg.int 42, Arg.str "x".toList] _ hx
    have hm : cstr (List.take 1023 "value=42 name=x".toList) = "value=42 name=x".toList := by
      decide
    rw [h, hm]

/-- C3 at the example of the spec, with the buffer on a stack of 1024 bytes
that hold `z`. -/
theorem C3_logger_renders_witness :
    exampleFormatter (cstr "value=%d name=%s".toList) [Arg.int 42, Arg.str "x".toList]
        = Formatted.output "value=42 name=x".toList
      ∧ "value=42 name=x".toList.length < 1024
      ∧ (Logger exampleFormatter (List.replicate 1024 'z') 7 20 fmi2Status.fmi2Warning 21
            "value=%d name=%s".toList [Arg.int 42, Arg.str "x".toList]).1
          = [Event.goLogger 7 20 fmi2Status.fmi2Warning 21 (cstr "value=42 name=x".toList)] :=
  ⟨by decide, by decide,
    (C3_logger_renders exampleFormatter (List.replicate 1024 'z') 7 20
      fmi2Status.fmi2Warning 21
      "value=%d name=%s".toList [Arg.int 42, Arg.str "x".toList] "value=42 name=x".toList
      (by decide) (by decide)).1⟩

end GoFmu
